import Mathlib

/-!
Verification of the openseadragon-scalebar plugin's scale-value selection,
unit formatting, placement and configuration-update logic.

The source (`lib/openseadragon-scalebar.js`, TypeScript original) performs
JavaScript floating-point arithmetic; it is embedded here over the real
numbers, which is the idealized semantics the specification reasons in.
`Math.log`, `Math.pow`, `Math.ceil`, `Math.round`, `Math.min` and `Math.max`
become `Real.log`, `zpow` (every exponent in the source is integral),
`Int.ceil`, `round` (Mathlib's `round` is `⌊x + 1/2⌋`, exactly JavaScript's
half-up rounding), `min` and `max`.  Strings produced by the renderers are
kept as a pair of the numeric factor and the literal unit tail, since
JavaScript number-to-string formatting is not part of any verified claim.
-/

namespace OsdScalebar

/-- `ScalebarType` enum from the source (`NONE = 0`, `MICROSCOPY = 1`,
`MAP = 2`); `NONE` is the only falsy value. -/
inductive ScalebarType where
  | NONE
  | MICROSCOPY
  | MAP
deriving DecidableEq

/-- `ScalebarLocation` enum from the source (`NONE = 0`, then the four
corners); `NONE` is the only falsy value. -/
inductive ScalebarLocation where
  | NONE
  | TOP_LEFT
  | TOP_RIGHT
  | BOTTOM_RIGHT
  | BOTTOM_LEFT
deriving DecidableEq

/-- Return record of `getScalebarSizeAndText` / `getScalebarSizeAndTextForMetric`:
`{size, text}` in the source.  The source's `text` is the concatenation of the
displayed numeric factor and a unit tail; it is modelled as the pair
`(displayed factor, unit tail string)` because JavaScript's number formatting
is outside the model. -/
structure SizeAndText where
  size : ℝ
  text : ℝ × String

/-- `log10` from the source: `Math.log(x) / Math.log(10)`.  Definitionally
equal to `Real.logb 10 x`. -/
noncomputable def log10 (x : ℝ) : ℝ :=
  Real.log x / Real.log 10

/-- `getSignificand` from the source: `x * Math.pow(10, Math.ceil(-log10(x)))`.
The exponent is an integer, so `Math.pow` is `zpow`. -/
noncomputable def getSignificand (x : ℝ) : ℝ :=
  x * (10 : ℝ) ^ (⌈-log10 x⌉ : ℤ)

/-- `roundSignificand` from the source: rounds `x` to `decimalPlaces`
significant decimal digits working on integers.  Both source branches
(`power < 0` multiplies by `Math.pow(10, -power)`, otherwise divides by
`Math.pow(10, power)`) are reproduced; over ℝ they agree. -/
noncomputable def roundSignificand (x : ℝ) (decimalPlaces : ℤ) : ℝ :=
  let exponent : ℤ := -⌈-log10 x⌉
  let power : ℤ := decimalPlaces - exponent
  let significand := x * (10 : ℝ) ^ power
  if power < 0 then (round significand : ℤ) * (10 : ℝ) ^ (-power)
  else (round significand : ℤ) / (10 : ℝ) ^ power

/-- `normalize` from the source: significand of value over significand of
`minSize`, then the three sequential snap-down checks `≥5 / ≥4 / ≥2`. -/
noncomputable def normalize (value minSize : ℝ) : ℝ :=
  let significand := getSignificand value
  let minSizeSign := getSignificand minSize
  let result := getSignificand (significand / minSizeSign)
  let result1 := if result ≥ 5 then result / 5 else result
  let result2 := if result1 ≥ 4 then result1 / 4 else result1
  if result2 ≥ 2 then result2 / 2 else result2

/-- The snap-down step of `normalize` in isolation: the three sequential
`if (result >= 5) / if (result >= 4) / if (result >= 2)` divisions applied
to an arbitrary input. -/
noncomputable def snapDown (result : ℝ) : ℝ :=
  let result1 := if result ≥ 5 then result / 5 else result
  let result2 := if result1 ≥ 4 then result1 / 4 else result1
  if result2 ≥ 2 then result2 / 2 else result2

/-- `getWithUnit` from the source: rescales a factor into a metric magnitude
bucket.  The source returns the single string `scaledValue + tail`; the model
returns the pair `(scaledValue, tail)`. -/
noncomputable def getWithUnit (value : ℝ) (unitSuffix : String) : ℝ × String :=
  if value < 0.000001 then (value * 1000000000, " n" ++ unitSuffix)
  else if value < 0.001 then (value * 1000000, " μ" ++ unitSuffix)
  else if value < 1 then (value * 1000, " m" ++ unitSuffix)
  else if value ≥ 1000 then (value / 1000, " k" ++ unitSuffix)
  else (value, " " ++ unitSuffix)

/-- `getScalebarSizeAndText` from the source.  An omitted `handlePlural`
argument in the source is falsy, modelled by passing `false`; an omitted
`spacer` is `undefined`, modelled by `none` (resolved to `" "`). -/
noncomputable def getScalebarSizeAndText (ppm minSize : ℝ) (unitSuffix : String)
    (handlePlural : Bool) (spacer : Option String) : SizeAndText :=
  let sp := spacer.getD " "
  let value := normalize ppm minSize
  let factor := roundSignificand ((value / ppm) * minSize) 3
  let size := value * minSize
  let plural := if handlePlural ∧ factor > 1 then "s" else ""
  { size := size, text := (factor, sp ++ unitSuffix ++ plural) }

/-- `getScalebarSizeAndTextForMetric` from the source. -/
noncomputable def getScalebarSizeAndTextForMetric (ppm minSize : ℝ)
    (unitSuffix : String) : SizeAndText :=
  let value := normalize ppm minSize
  let factor := roundSignificand ((value / ppm) * minSize) 3
  let size := value * minSize
  { size := size, text := getWithUnit factor unitSuffix }

/-- `ScalebarSizeAndTextRenderer.METRIC_LENGTH` from the source. -/
noncomputable def METRIC_LENGTH (ppm minSize : ℝ) : SizeAndText :=
  getScalebarSizeAndTextForMetric ppm minSize "m"

/-- `ScalebarSizeAndTextRenderer.IMPERIAL_LENGTH` from the source.  Note the
foot branch is guarded by `maxSize < ppf * 2000`, the mile rate by
`ppf * 5280`. -/
noncomputable def IMPERIAL_LENGTH (ppm minSize : ℝ) : SizeAndText :=
  let maxSize := minSize * 2
  let ppi := ppm * 0.0254
  if maxSize < ppi * 12 then
    if maxSize < ppi then
      getScalebarSizeAndText (ppi / 1000) minSize "th" false none
    else
      getScalebarSizeAndText ppi minSize "in" false none
  else
    let ppf := ppi * 12
    if maxSize < ppf * 2000 then
      getScalebarSizeAndText ppf minSize "ft" false none
    else
      getScalebarSizeAndText (ppf * 5280) minSize "mi" false none

/-! ### The metric magnitude buckets of `getWithUnit` -/

/-- The five magnitude ranges of `getWithUnit`, as half-open intervals indexed
`0` (nano) to `4` (kilo). -/
def metricBucketP : ℕ → ℝ → Prop
  | 0, v => v < 0.000001
  | 1, v => 0.000001 ≤ v ∧ v < 0.001
  | 2, v => 0.001 ≤ v ∧ v < 1
  | 3, v => 1 ≤ v ∧ v < 1000
  | 4, v => 1000 ≤ v
  | _ + 5, _ => False

/-- The bucket index chosen by `getWithUnit`'s cascade of comparisons, in the
source's order. -/
noncomputable def metricBucketIndex (v : ℝ) : ℕ :=
  if v < 0.000001 then 0
  else if v < 0.001 then 1
  else if v < 1 then 2
  else if v ≥ 1000 then 4
  else 3

/-! ### Overlay placement: `getScalebarLocation`

The source method reads the viewer's wrap flags (numbers used for their
truthiness, modelled as `Bool`), the image aspect ratio, the viewport's
`pixelFromPoint` transform (an external capability, modelled as a function
`ℝ × ℝ → ℝ × ℝ`), the overlay div's offset dimensions, the container's offset
dimensions and the configured offsets.  `Math.min`/`Math.max` keep the source's
argument order.  The `NONE` case falls through and returns `undefined` in the
source, modelled as `none`. -/

noncomputable def getScalebarLocation (location : ScalebarLocation)
    (stayInsideImage : Bool) (wrapHorizontal wrapVertical : Bool)
    (aspectRatio : ℝ) (pixelFromPoint : ℝ × ℝ → ℝ × ℝ)
    (barWidth barHeight containerWidth containerHeight : ℝ)
    (xOffset yOffset : ℝ) : Option (ℝ × ℝ) :=
  match location with
  | ScalebarLocation.NONE => none
  | ScalebarLocation.TOP_LEFT =>
      let p :=
        if stayInsideImage then
          let pixel := pixelFromPoint (0, 0)
          ((if !wrapHorizontal then max pixel.1 0 else 0),
           (if !wrapVertical then max pixel.2 0 else 0))
        else ((0 : ℝ), (0 : ℝ))
      some (p.1 + xOffset, p.2 + yOffset)
  | ScalebarLocation.TOP_RIGHT =>
      let x := containerWidth - barWidth
      let y := (0 : ℝ)
      let p :=
        if stayInsideImage then
          let pixel := pixelFromPoint (1, 0)
          ((if !wrapHorizontal then min x (pixel.1 - barWidth) else x),
           (if !wrapVertical then max y pixel.2 else y))
        else (x, y)
      some (p.1 - xOffset, p.2 + yOffset)
  | ScalebarLocation.BOTTOM_RIGHT =>
      let x := containerWidth - barWidth
      let y := containerHeight - barHeight
      let p :=
        if stayInsideImage then
          let pixel := pixelFromPoint (1, 1 / aspectRatio)
          ((if !wrapHorizontal then min x (pixel.1 - barWidth) else x),
           (if !wrapVertical then min y (pixel.2 - barHeight) else y))
        else (x, y)
      some (p.1 - xOffset, p.2 - yOffset)
  | ScalebarLocation.BOTTOM_LEFT =>
      let y := containerHeight - barHeight
      let p :=
        if stayInsideImage then
          let pixel := pixelFromPoint (0, 1 / aspectRatio)
          ((if !wrapHorizontal then max (0 : ℝ) pixel.1 else 0),
           (if !wrapVertical then min y (pixel.2 - barHeight) else y))
        else ((0 : ℝ), y)
      some (p.1 + xOffset, p.2 - yOffset)

/-- Spelled-out expected x-coordinate for each corner when horizontal clamping
is skipped: the container-edge position pushed inward by the offset
(spec §4.3). -/
def unclampedX (location : ScalebarLocation)
    (barWidth containerWidth xOffset : ℝ) : ℝ :=
  match location with
  | ScalebarLocation.NONE => 0
  | ScalebarLocation.TOP_LEFT => 0 + xOffset
  | ScalebarLocation.TOP_RIGHT => containerWidth - barWidth - xOffset
  | ScalebarLocation.BOTTOM_RIGHT => containerWidth - barWidth - xOffset
  | ScalebarLocation.BOTTOM_LEFT => 0 + xOffset

/-- Spelled-out expected y-coordinate for each corner when vertical clamping
applies (spec §4.3): the directionally appropriate min/max of the container
edge and the content-edge pixel from the transform. -/
noncomputable def clampedY (location : ScalebarLocation) (aspectRatio : ℝ)
    (pixelFromPoint : ℝ × ℝ → ℝ × ℝ)
    (barHeight containerHeight yOffset : ℝ) : ℝ :=
  match location with
  | ScalebarLocation.NONE => 0
  | ScalebarLocation.TOP_LEFT => max (pixelFromPoint (0, 0)).2 0 + yOffset
  | ScalebarLocation.TOP_RIGHT => max 0 (pixelFromPoint (1, 0)).2 + yOffset
  | ScalebarLocation.BOTTOM_RIGHT =>
      min (containerHeight - barHeight)
        ((pixelFromPoint (1, 1 / aspectRatio)).2 - barHeight) - yOffset
  | ScalebarLocation.BOTTOM_LEFT =>
      min (containerHeight - barHeight)
        ((pixelFromPoint (0, 1 / aspectRatio)).2 - barHeight) - yOffset

/-- Spelled-out expected y-coordinate for each corner when vertical clamping
is skipped. -/
def unclampedY (location : ScalebarLocation)
    (barHeight containerHeight yOffset : ℝ) : ℝ :=
  match location with
  | ScalebarLocation.NONE => 0
  | ScalebarLocation.TOP_LEFT => 0 + yOffset
  | ScalebarLocation.TOP_RIGHT => 0 + yOffset
  | ScalebarLocation.BOTTOM_RIGHT => containerHeight - barHeight - yOffset
  | ScalebarLocation.BOTTOM_LEFT => containerHeight - barHeight - yOffset

/-- Spelled-out expected x-coordinate for each corner when horizontal clamping
applies. -/
noncomputable def clampedX (location : ScalebarLocation) (aspectRatio : ℝ)
    (pixelFromPoint : ℝ × ℝ → ℝ × ℝ)
    (barWidth containerWidth xOffset : ℝ) : ℝ :=
  match location with
  | ScalebarLocation.NONE => 0
  | ScalebarLocation.TOP_LEFT => max (pixelFromPoint (0, 0)).1 0 + xOffset
  | ScalebarLocation.TOP_RIGHT =>
      min (containerWidth - barWidth)
        ((pixelFromPoint (1, 0)).1 - barWidth) - xOffset
  | ScalebarLocation.BOTTOM_RIGHT =>
      min (containerWidth - barWidth)
        ((pixelFromPoint (1, 1 / aspectRatio)).1 - barWidth) - xOffset
  | ScalebarLocation.BOTTOM_LEFT =>
      max 0 (pixelFromPoint (0, 1 / aspectRatio)).1 + xOffset

/-! ### Instance state, `refresh` and `updateOptions`

The `Scalebar` class state is modelled by the fields its methods read and
write.  DOM-valued pieces are abstracted: the three possible draw functions
(`drawMicroscopyScalebar`, `drawMapScalebar` and the default no-op closure)
become tags, since they only mutate div styles; `this.viewer.isOpen()` is a
Boolean input captured as a field; the current zoom, the viewport transform
and the div/container dimensions are passed to `refresh` as arguments. -/

/-- The three draw functions a `Scalebar` instance can hold.  In JavaScript
all three are functions, hence truthy. -/
inductive DrawFn where
  | microscopy
  | map
  | noop
deriving DecidableEq

/-- `setDrawScalebarFunction` from the source: returns (does not assign) the
draw function for a type tag; the `default` switch branch returns a no-op
closure. -/
def setDrawScalebarFunction (type : ScalebarType) : DrawFn :=
  match type with
  | ScalebarType.MAP => DrawFn.map
  | ScalebarType.MICROSCOPY => DrawFn.microscopy
  | ScalebarType.NONE => DrawFn.noop

/-- The per-instance state of the `Scalebar` class (the `viewer` handle and
the div element are external). -/
structure Scalebar where
  isOpen : Bool
  minWidth : ℝ
  drawScalebar : DrawFn
  color : String
  fontColor : String
  backgroundColor : String
  fontSize : String
  fontFamily : String
  barThickness : ℝ
  pixelsPerMeter : Option ℝ
  referenceItemIdx : ℕ
  location : ScalebarLocation
  xOffset : ℝ
  yOffset : ℝ
  stayInsideImage : Bool
  sizeAndTextRenderer : ℝ → ℝ → SizeAndText

/-- The `ScalebarOptions` object accepted by `updateOptions`: every field is
optional (`undefined` is `none`).  The required `viewer` handle is external. -/
structure ScalebarOptions where
  type : Option ScalebarType := none
  minWidth : Option String := none
  color : Option String := none
  fontColor : Option String := none
  backgroundColor : Option String := none
  fontSize : Option String := none
  fontFamily : Option String := none
  barThickness : Option ℝ := none
  pixelsPerMeter : Option ℝ := none
  referenceItemIdx : Option ℕ := none
  location : Option ScalebarLocation := none
  xOffset : Option ℝ := none
  yOffset : Option ℝ := none
  stayInsideImage : Option Bool := none
  sizeAndTextRenderer : Option (ℝ → ℝ → SizeAndText) := none

/-- `updateOptions` from the source.  Each `if (options.field)` guard is
JavaScript truthiness: absent (`none`), zero numbers, empty strings, `false`,
and the zero enum members (`ScalebarType.NONE`, `ScalebarLocation.NONE`) are
falsy and leave the field alone.  Two guards call a method and discard its
result, changing no state field: `options.type` calls
`setDrawScalebarFunction` without assigning `this.drawScalebar`, and
`options.minWidth` calls `setMinWidth`, which only resizes the div and whose
returned offset width is likewise discarded. -/
noncomputable def updateOptions (st : Scalebar) (options : ScalebarOptions) :
    Scalebar :=
  { st with
    color := match options.color with
      | some s => if s = "" then st.color else s
      | none => st.color
    fontColor := match options.fontColor with
      | some s => if s = "" then st.fontColor else s
      | none => st.fontColor
    backgroundColor := match options.backgroundColor with
      | some s => if s = "" then st.backgroundColor else s
      | none => st.backgroundColor
    fontSize := match options.fontSize with
      | some s => if s = "" then st.fontSize else s
      | none => st.fontSize
    fontFamily := match options.fontFamily with
      | some s => if s = "" then st.fontFamily else s
      | none => st.fontFamily
    barThickness := match options.barThickness with
      | some v => if v = 0 then st.barThickness else v
      | none => st.barThickness
    pixelsPerMeter := match options.pixelsPerMeter with
      | some v => if v = 0 then st.pixelsPerMeter else some v
      | none => st.pixelsPerMeter
    referenceItemIdx := match options.referenceItemIdx with
      | some v => if v = 0 then st.referenceItemIdx else v
      | none => st.referenceItemIdx
    location := match options.location with
      | some l => if l = ScalebarLocation.NONE then st.location else l
      | none => st.location
    xOffset := match options.xOffset with
      | some v => if v = 0 then st.xOffset else v
      | none => st.xOffset
    yOffset := match options.yOffset with
      | some v => if v = 0 then st.yOffset else v
      | none => st.yOffset
    stayInsideImage := match options.stayInsideImage with
      | some true => true
      | _ => st.stayInsideImage
    sizeAndTextRenderer := match options.sizeAndTextRenderer with
      | some f => f
      | none => st.sizeAndTextRenderer }

/-- Outcome of one `refresh` call: either the overlay is hidden
(`display = "none"` and early return), or the size/text computation ran and
a position was resolved. -/
inductive RefreshOutcome where
  | disabled
  | computed (props : SizeAndText) (location : Option (ℝ × ℝ))

/-- `refresh` from the source (the optional `options` argument, which is
forwarded to `updateOptions`, is applied by the caller in this model).  The
guard hides the overlay when the viewer is not open, `pixelsPerMeter` is
`null` or `0`, or `location` is `NONE`.  The source guard also tests
`!this.drawScalebar`, which is always false because the constructor always
assigns one of the three (truthy) draw functions modelled by `DrawFn`.
`zoom` stands for `tiledImageViewportToImageZoom(tiledImage,
viewport.getZoom(true))`, an input read from the external viewer. -/
noncomputable def refresh (st : Scalebar) (zoom : ℝ)
    (pixelFromPoint : ℝ × ℝ → ℝ × ℝ) (wrapHorizontal wrapVertical : Bool)
    (aspectRatio : ℝ) (barWidth barHeight containerWidth containerHeight : ℝ) :
    RefreshOutcome :=
  if st.isOpen = false ∨ st.pixelsPerMeter = none ∨ st.pixelsPerMeter = some 0 ∨
      st.location = ScalebarLocation.NONE then
    RefreshOutcome.disabled
  else
    let currentPPM := zoom * st.pixelsPerMeter.getD 0
    let props := st.sizeAndTextRenderer currentPPM st.minWidth
    RefreshOutcome.computed props
      (getScalebarLocation st.location st.stayInsideImage wrapHorizontal
        wrapVertical aspectRatio pixelFromPoint barWidth barHeight
        containerWidth containerHeight st.xOffset st.yOffset)

/-- A fully configured instance whose minimum bar width is `0`
(non-positive), with the default renderer, an open viewer, a calibration
constant and a corner location. -/
noncomputable def exampleState : Scalebar where
  isOpen := true
  minWidth := 0
  drawScalebar := DrawFn.microscopy
  color := "black"
  fontColor := "black"
  backgroundColor := "none"
  fontSize := ""
  fontFamily := ""
  barThickness := 2
  pixelsPerMeter := some 1
  referenceItemIdx := 0
  location := ScalebarLocation.BOTTOM_LEFT
  xOffset := 5
  yOffset := 5
  stayInsideImage := true
  sizeAndTextRenderer := METRIC_LENGTH

/-! ### Basic facts about `getSignificand` -/

lemma log10_eq_logb (x : ℝ) : log10 x = Real.logb 10 x := rfl

lemma ten_zpow_pos (n : ℤ) : (0 : ℝ) < (10 : ℝ) ^ n :=
  zpow_pos (by norm_num) n

lemma ten_zpow_log_le {x : ℝ} (hx : 0 < x) :
    (10 : ℝ) ^ (Int.log 10 x) ≤ x := by
  have h := Int.zpow_log_le_self (b := 10) (R := ℝ) (by norm_num) hx
  simpa using h

lemma ten_lt_zpow_succ_log {x : ℝ} :
    x < (10 : ℝ) ^ (Int.log 10 x + 1) := by
  have h := Int.lt_zpow_succ_log_self (b := 10) (R := ℝ) (by norm_num) x
  simpa using h

/-- Uniqueness of the decimal bracketing exponent. -/
lemma int_log_eq {y : ℝ} {n : ℤ} (h1 : (10 : ℝ) ^ n ≤ y)
    (h2 : y < (10 : ℝ) ^ (n + 1)) : Int.log 10 y = n := by
  have hy : 0 < y := lt_of_lt_of_le (ten_zpow_pos n) h1
  have hle : n ≤ Int.log 10 y := by
    have := (Int.zpow_le_iff_le_log (b := 10) (R := ℝ) (by norm_num) hy).mp
      (by simpa using h1)
    exact this
  have hlt : Int.log 10 y < n + 1 := by
    have := (Int.lt_zpow_iff_log_lt (b := 10) (R := ℝ) (by norm_num) hy).mp
      (by simpa using h2)
    exact this
  omega

/-- The ceiling used by `getSignificand` and `roundSignificand`, computed
from the decimal bracketing of `x`. -/
lemma ceil_neg_log10_eq {x : ℝ} {n : ℤ} (h1 : (10 : ℝ) ^ n ≤ x)
    (h2 : x < (10 : ℝ) ^ (n + 1)) : ⌈-log10 x⌉ = -n := by
  have hx : 0 < x := lt_of_lt_of_le (ten_zpow_pos n) h1
  rw [log10_eq_logb, Int.ceil_neg]
  have hfloor : ⌊Real.logb 10 x⌋ = n := by
    have hcast : ⌊Real.logb ((10 : ℕ) : ℝ) x⌋ = Int.log 10 x :=
      Real.floor_logb_natCast hx.le
    have h10 : ((10 : ℕ) : ℝ) = (10 : ℝ) := by norm_num
    rw [h10] at hcast
    rw [hcast, int_log_eq h1 h2]
  rw [hfloor]

lemma getSignificand_eq_of {x : ℝ} {n : ℤ} (h1 : (10 : ℝ) ^ n ≤ x)
    (h2 : x < (10 : ℝ) ^ (n + 1)) :
    getSignificand x = x * (10 : ℝ) ^ (-n) := by
  unfold getSignificand
  rw [ceil_neg_log10_eq h1 h2]

/-- Decimal bracketing exists for every positive real. -/
lemma exists_ten_bracket {x : ℝ} (hx : 0 < x) :
    ∃ n : ℤ, (10 : ℝ) ^ n ≤ x ∧ x < (10 : ℝ) ^ (n + 1) :=
  ⟨Int.log 10 x, ten_zpow_log_le hx, ten_lt_zpow_succ_log⟩

/-- `getSignificand` maps every positive real into `[1, 10)`. -/
lemma getSignificand_mem {x : ℝ} (hx : 0 < x) :
    1 ≤ getSignificand x ∧ getSignificand x < 10 := by
  obtain ⟨n, h1, h2⟩ := exists_ten_bracket hx
  rw [getSignificand_eq_of h1 h2]
  have hpos : (0 : ℝ) < (10 : ℝ) ^ (-n) := ten_zpow_pos (-n)
  constructor
  · have := mul_le_mul_of_nonneg_right h1 hpos.le
    calc (1 : ℝ) = (10 : ℝ) ^ n * (10 : ℝ) ^ (-n) := by
          rw [← zpow_add₀ (by norm_num : (10 : ℝ) ≠ 0)]
          norm_num
      _ ≤ x * (10 : ℝ) ^ (-n) := this
  · have := mul_lt_mul_of_pos_right h2 hpos
    calc x * (10 : ℝ) ^ (-n) < (10 : ℝ) ^ (n + 1) * (10 : ℝ) ^ (-n) := this
      _ = 10 := by
          rw [← zpow_add₀ (by norm_num : (10 : ℝ) ≠ 0)]
          norm_num

lemma getSignificand_pos {x : ℝ} (hx : 0 < x) : 0 < getSignificand x :=
  lt_of_lt_of_le one_pos (getSignificand_mem hx).1

/-! ### The snap-down step and `normalize` -/

lemma normalize_eq_snapDown (v m : ℝ) :
    normalize v m = snapDown (getSignificand (getSignificand v / getSignificand m)) :=
  rfl

lemma snapDown_mem {r : ℝ} (h1 : 1 ≤ r) (h2 : r < 10) :
    1 ≤ snapDown r ∧ snapDown r < 2 := by
  unfold snapDown
  dsimp only
  split_ifs <;> constructor <;> linarith

lemma normalize_mem {v m : ℝ} (hv : 0 < v) (hm : 0 < m) :
    1 ≤ normalize v m ∧ normalize v m < 2 := by
  have hq : 0 < getSignificand v / getSignificand m :=
    div_pos (getSignificand_pos hv) (getSignificand_pos hm)
  have h3 := getSignificand_mem hq
  rw [normalize_eq_snapDown]
  exact snapDown_mem h3.1 h3.2

/-! ### Claim theorems: scale-value selection -/

/-- C1: for every `pixelsPerUnit > 0` and `minWidth > 0`, the bar pixel size
`size = normalize(pixelsPerUnit, minWidth) * minWidth` computed by both
`getScalebarSizeAndText` and `getScalebarSizeAndTextForMetric` satisfies
`minWidth ≤ size < 2 * minWidth`. -/
theorem scalebarSize_bounds :
    ∀ (ppm minSize : ℝ) (u : String) (hp : Bool) (sp : Option String),
    0 < ppm → 0 < minSize →
    (minSize ≤ (getScalebarSizeAndText ppm minSize u hp sp).size ∧
      (getScalebarSizeAndText ppm minSize u hp sp).size < 2 * minSize) ∧
    (minSize ≤ (getScalebarSizeAndTextForMetric ppm minSize u).size ∧
      (getScalebarSizeAndTextForMetric ppm minSize u).size < 2 * minSize) := by
  intro ppm minSize u hp sp hppm hmin
  have hn := normalize_mem hppm hmin
  have hsize1 : (getScalebarSizeAndText ppm minSize u hp sp).size
      = normalize ppm minSize * minSize := rfl
  have hsize2 : (getScalebarSizeAndTextForMetric ppm minSize u).size
      = normalize ppm minSize * minSize := rfl
  rw [hsize1, hsize2]
  have hb1 := hn.1
  have hb2 := hn.2
  constructor <;> constructor <;> nlinarith

/-- Witness for C1 at `pixelsPerUnit = 5/2`, `minWidth = 150`. -/
theorem scalebarSize_bounds_witness :
    (0 < (5/2 : ℝ) ∧ 0 < (150 : ℝ)) ∧
    ((150 ≤ (getScalebarSizeAndText (5/2) 150 "m" false none).size ∧
      (getScalebarSizeAndText (5/2) 150 "m" false none).size < 2 * 150) ∧
     (150 ≤ (getScalebarSizeAndTextForMetric (5/2) 150 "m").size ∧
      (getScalebarSizeAndTextForMetric (5/2) 150 "m").size < 2 * 150)) :=
  ⟨⟨by norm_num, by norm_num⟩,
    scalebarSize_bounds (5/2) 150 "m" false none (by norm_num) (by norm_num)⟩

/-- C4 counterexample: the snap-down step does not map all of `[1, 10)` into
`{1, 1.25, 2, 2.5}`: at `r = 3` it produces `1.5`. -/
theorem snapDown_not_discrete :
    ((1 : ℝ) ≤ 3 ∧ (3 : ℝ) < 10) ∧ snapDown 3 = 3 / 2 ∧
    ¬(snapDown 3 = 1 ∨ snapDown 3 = 1.25 ∨ snapDown 3 = 2 ∨ snapDown 3 = 2.5) := by
  have h : snapDown 3 = 3 / 2 := by
    unfold snapDown
    dsimp only
    norm_num
  refine ⟨⟨by norm_num, by norm_num⟩, h, ?_⟩
  rw [h]
  norm_num

/-- C4 amended: the three sequential snap-down checks (`≥5` divide by 5, then
`≥4` divide by 4, then `≥2` divide by 2) map every `r ∈ [1, 10)` into the
half-open interval `[1, 2)` (not always into `{1, 1.25, 2, 2.5}`). -/
theorem snapDown_range :
    ∀ r : ℝ, 1 ≤ r → r < 10 → 1 ≤ snapDown r ∧ snapDown r < 2 :=
  fun _ h1 h2 => snapDown_mem h1 h2

/-- Witness for the amended C4 at `r = 3`. -/
theorem snapDown_range_witness :
    ((1 : ℝ) ≤ 3 ∧ (3 : ℝ) < 10) ∧ (1 ≤ snapDown 3 ∧ snapDown 3 < 2) :=
  ⟨⟨by norm_num, by norm_num⟩, snapDown_range 3 (by norm_num) (by norm_num)⟩

/-- C6: `getSignificand x = x * 10^(ceil(-log10 x))` lies in `[1, 10)` for
every `x > 0`, and equals `1` exactly on integer powers of ten. -/
theorem getSignificand_spec :
    (∀ x : ℝ, 0 < x → 1 ≤ getSignificand x ∧ getSignificand x < 10) ∧
    (∀ n : ℤ, getSignificand ((10 : ℝ) ^ n) = 1) := by
  constructor
  · exact fun _ hx => getSignificand_mem hx
  · intro n
    have h2 : (10 : ℝ) ^ n < (10 : ℝ) ^ (n + 1) := by
      calc (10 : ℝ) ^ n = (10 : ℝ) ^ n * 1 := (mul_one _).symm
        _ < (10 : ℝ) ^ n * 10 := by
            have := ten_zpow_pos n
            nlinarith
        _ = (10 : ℝ) ^ (n + 1) := by
            rw [zpow_add₀ (by norm_num : (10 : ℝ) ≠ 0)]
            norm_num
    rw [getSignificand_eq_of (le_refl _) h2,
      ← zpow_add₀ (by norm_num : (10 : ℝ) ≠ 0)]
    norm_num

/-- Witness for C6 at `x = 5` (and the power-of-ten part is hypothesis-free). -/
theorem getSignificand_spec_witness :
    0 < (5 : ℝ) ∧ (1 ≤ getSignificand 5 ∧ getSignificand 5 < 10) :=
  ⟨by norm_num, getSignificand_spec.1 5 (by norm_num)⟩

lemma metricBucketP_iff {v : ℝ} (i : ℕ) :
    metricBucketP i v ↔ i = metricBucketIndex v := by
  unfold metricBucketIndex
  split_ifs with h1 h2 h3 h4 <;>
    rcases i with _ | _ | _ | _ | _ | i <;>
      simp only [metricBucketP] <;>
        constructor <;>
          intro h <;>
            first
              | trivial
              | exact h.elim
              | (obtain ⟨ha, hb⟩ := h; exfalso; first | omega | linarith)
              | (exfalso; first | omega | linarith)
              | exact ⟨by linarith, by linarith⟩

/-! ### Claim theorems: metric bucketing -/

/-- C3: `getWithUnit` buckets every positive value into exactly one of five
half-open magnitude ranges (the bucket picked by the source's cascade), with
the stated factor and unit tail for each range, and `value = 1e-6` gets the
micro tail, not nano. -/
theorem getWithUnit_partition :
    ∀ (u : String) (v : ℝ), 0 < v →
      (∀ i : ℕ, metricBucketP i v ↔ i = metricBucketIndex v) ∧
      (v < 0.000001 → getWithUnit v u = (v * 1000000000, " n" ++ u)) ∧
      (0.000001 ≤ v → v < 0.001 → getWithUnit v u = (v * 1000000, " μ" ++ u)) ∧
      (0.001 ≤ v → v < 1 → getWithUnit v u = (v * 1000, " m" ++ u)) ∧
      (1 ≤ v → v < 1000 → getWithUnit v u = (v, " " ++ u)) ∧
      (1000 ≤ v → getWithUnit v u = (v / 1000, " k" ++ u)) ∧
      getWithUnit 0.000001 u = (0.000001 * 1000000, " μ" ++ u) := by
  intro u v hv
  refine ⟨fun i => metricBucketP_iff i, ?_, ?_, ?_, ?_, ?_, ?_⟩
  · intro h
    unfold getWithUnit
    rw [if_pos h]
  · intro h1 h2
    unfold getWithUnit
    rw [if_neg (by linarith), if_pos h2]
  · intro h1 h2
    unfold getWithUnit
    rw [if_neg (by linarith), if_neg (by linarith), if_pos h2]
  · intro h1 h2
    unfold getWithUnit
    rw [if_neg (by linarith), if_neg (by linarith), if_neg (by linarith),
      if_neg (by simp only [ge_iff_le, not_le]; linarith)]
  · intro h1
    unfold getWithUnit
    rw [if_neg (by linarith), if_neg (by linarith), if_neg (by linarith),
      if_pos (by simp only [ge_iff_le]; linarith)]
  · unfold getWithUnit
    rw [if_neg (by norm_num), if_pos (by norm_num)]

/-- Witness for C3: `1e-6` maps to the micro bucket. -/
theorem getWithUnit_partition_witness :
    0 < (0.000001 : ℝ) ∧
    getWithUnit 0.000001 "m" = (0.000001 * 1000000, " μ" ++ "m") :=
  ⟨by norm_num, (getWithUnit_partition "m" 0.000001 (by norm_num)).2.2.2.2.2.2⟩

/-! ### Claim theorems: imperial length -/

lemma getScalebarSizeAndText_text_snd (ppm minSize : ℝ) (u : String) :
    (getScalebarSizeAndText ppm minSize u false none).text.2 = " " ++ u := by
  simp [getScalebarSizeAndText]

/-- C2 counterexample: at `ppm = 10000/254` (one pixel per inch) and
`minSize = 15000`, the double-width bar `2·minSize = 30000` is at least
`ppi·12 = 12` and strictly below `(ppi·12)·5280 = 63360`, so the claim
predicts the foot unit; the source compares against `ppf * 2000 = 24000`
instead and selects the mile unit. -/
theorem imperial_mile_at_2000ft :
    (0 < (10000 / 254 : ℝ) ∧ 0 < (15000 : ℝ) ∧
      ¬((15000 : ℝ) * 2 < ((10000 / 254 : ℝ) * 0.0254) * 12) ∧
      (15000 : ℝ) * 2 < (((10000 / 254 : ℝ) * 0.0254) * 12) * 5280) ∧
    (IMPERIAL_LENGTH (10000 / 254) 15000).text.2 = " mi" := by
  refine ⟨⟨by norm_num, by norm_num, by norm_num, by norm_num⟩, ?_⟩
  unfold IMPERIAL_LENGTH
  dsimp only
  rw [if_neg (by norm_num), if_neg (by norm_num)]
  rw [getScalebarSizeAndText_text_snd]
  rfl

/-- C2 amended: the imperial ladder walks thou→inch→foot→mile comparing
`maxSize = 2·minSize` against the pixels-per-unit at each step, but the
foot→mile cutoff is `(ppm·0.0254·12)·2000`, not `·5280`: once past the inch
threshold, the foot unit is selected iff `2·minSize < (ppm·0.0254·12)·2000`,
and mile otherwise. -/
theorem imperial_foot_mile_threshold :
    ∀ (ppm minSize : ℝ), 0 < ppm → 0 < minSize →
      ¬(minSize * 2 < ppm * 0.0254 * 12) →
      (((IMPERIAL_LENGTH ppm minSize).text.2 = " ft" ↔
          minSize * 2 < ppm * 0.0254 * 12 * 2000) ∧
        ((IMPERIAL_LENGTH ppm minSize).text.2 = " mi" ↔
          ¬(minSize * 2 < ppm * 0.0254 * 12 * 2000))) := by
  intro ppm minSize hppm hmin hno
  unfold IMPERIAL_LENGTH
  dsimp only
  rw [if_neg hno]
  by_cases hft : minSize * 2 < ppm * 0.0254 * 12 * 2000
  · rw [if_pos hft, getScalebarSizeAndText_text_snd]
    exact ⟨⟨fun _ => hft, fun _ => by decide⟩,
      ⟨fun h => absurd h (by decide), fun h => (h hft).elim⟩⟩
  · rw [if_neg hft, getScalebarSizeAndText_text_snd]
    exact ⟨⟨fun h => absurd h (by decide), fun h => (hft h).elim⟩,
      ⟨fun _ => hft, fun _ => by decide⟩⟩

/-- Witness for the amended C2 at `ppm = 10000/254`, `minSize = 15000`
(mile branch). -/
theorem imperial_foot_mile_threshold_witness :
    (0 < (10000 / 254 : ℝ) ∧ 0 < (15000 : ℝ) ∧
      ¬((15000 : ℝ) * 2 < (10000 / 254 : ℝ) * 0.0254 * 12)) ∧
    (((IMPERIAL_LENGTH (10000 / 254) 15000).text.2 = " ft" ↔
        (15000 : ℝ) * 2 < (10000 / 254 : ℝ) * 0.0254 * 12 * 2000) ∧
      ((IMPERIAL_LENGTH (10000 / 254) 15000).text.2 = " mi" ↔
        ¬((15000 : ℝ) * 2 < (10000 / 254 : ℝ) * 0.0254 * 12 * 2000))) :=
  ⟨⟨by norm_num, by norm_num, by norm_num⟩,
    imperial_foot_mile_threshold (10000 / 254) 15000 (by norm_num) (by norm_num)
      (by norm_num)⟩

/-! ### Idempotence of `roundSignificand` -/

lemma ten_ne_zero' : (10 : ℝ) ≠ 0 := by norm_num

lemma ten_zpow_lt_succ (m : ℤ) : (10 : ℝ) ^ m < (10 : ℝ) ^ (m + 1) := by
  calc (10 : ℝ) ^ m = (10 : ℝ) ^ m * 1 := (mul_one _).symm
    _ < (10 : ℝ) ^ m * 10 := by
        have := ten_zpow_pos m
        nlinarith
    _ = (10 : ℝ) ^ (m + 1) := by
        rw [zpow_add₀ ten_ne_zero']
        norm_num

/-- `roundSignificand` in closed form on the decimal bracket `[10^n, 10^(n+1))`:
both source branches collapse to `round(x·10^(d-n)) · 10^(n-d)` over ℝ. -/
lemma roundSignificand_eq_of {x : ℝ} {n : ℤ} (h1 : (10 : ℝ) ^ n ≤ x)
    (h2 : x < (10 : ℝ) ^ (n + 1)) (d : ℤ) :
    roundSignificand x d = (round (x * (10 : ℝ) ^ (d - n)) : ℤ) * (10 : ℝ) ^ (n - d) := by
  unfold roundSignificand
  dsimp only
  rw [ceil_neg_log10_eq h1 h2]
  simp only [neg_neg]
  have hnd : -(d - n) = n - d := by ring
  split_ifs with hp
  · rw [hnd]
  · rw [div_eq_mul_inv, ← zpow_neg, hnd]

/-- The integer produced by rounding in the first application lies in
`[1000, 10000]`. -/
lemma round_bracket {x : ℝ} {n : ℤ} (h1 : (10 : ℝ) ^ n ≤ x)
    (h2 : x < (10 : ℝ) ^ (n + 1)) :
    (1000 : ℤ) ≤ round (x * (10 : ℝ) ^ (3 - n)) ∧
      round (x * (10 : ℝ) ^ (3 - n)) ≤ 10000 := by
  have hp : (0 : ℝ) < (10 : ℝ) ^ (3 - n) := ten_zpow_pos _
  have hexp1 : n + (3 - n) = (3 : ℤ) := by ring
  have hexp2 : (n + 1) + (3 - n) = (4 : ℤ) := by ring
  have hs1 : (1000 : ℝ) ≤ x * (10 : ℝ) ^ (3 - n) := by
    calc (1000 : ℝ) = (10 : ℝ) ^ n * (10 : ℝ) ^ (3 - n) := by
          rw [← zpow_add₀ ten_ne_zero', hexp1]
          norm_num
      _ ≤ x * (10 : ℝ) ^ (3 - n) := mul_le_mul_of_nonneg_right h1 hp.le
  have hs2 : x * (10 : ℝ) ^ (3 - n) < 10000 := by
    calc x * (10 : ℝ) ^ (3 - n) < (10 : ℝ) ^ (n + 1) * (10 : ℝ) ^ (3 - n) :=
          mul_lt_mul_of_pos_right h2 hp
      _ = 10000 := by
          rw [← zpow_add₀ ten_ne_zero', hexp2]
          norm_num
  constructor
  · rw [round_eq]
    exact Int.le_floor.mpr (by push_cast; linarith)
  · rw [round_eq]
    have hlt : (⌊x * (10 : ℝ) ^ (3 - n) + 1 / 2⌋ : ℤ) < 10001 :=
      Int.floor_lt.mpr (by push_cast; linarith)
    omega

/-- C9: `roundSignificand` with 3 decimal places is idempotent on positive
inputs. -/
theorem roundSignificand_idempotent :
    ∀ x : ℝ, 0 < x →
      roundSignificand (roundSignificand x 3) 3 = roundSignificand x 3 := by
  intro x hx
  obtain ⟨n, h1, h2⟩ := exists_ten_bracket hx
  have heq := roundSignificand_eq_of h1 h2 3
  obtain ⟨hk1, hk2⟩ := round_bracket h1 h2
  set k := round (x * (10 : ℝ) ^ (3 - n)) with hk
  rw [heq]
  rcases eq_or_lt_of_le hk2 with hke | hkl
  · -- the first rounding bumped up to exactly 10^4, so the result is 10^(n+1)
    have hy : (k : ℝ) * (10 : ℝ) ^ (n - 3) = (10 : ℝ) ^ (n + 1) := by
      rw [hke]
      have h4 : ((10000 : ℤ) : ℝ) = (10 : ℝ) ^ (4 : ℤ) := by norm_num
      calc ((10000 : ℤ) : ℝ) * (10 : ℝ) ^ (n - 3)
          = (10 : ℝ) ^ (4 : ℤ) * (10 : ℝ) ^ (n - 3) := by rw [h4]
        _ = (10 : ℝ) ^ (n + 1) := by
            rw [← zpow_add₀ ten_ne_zero']
            congr 1
            omega
    rw [hy]
    rw [roundSignificand_eq_of (le_refl ((10 : ℝ) ^ (n + 1))) (ten_zpow_lt_succ (n + 1)) 3]
    have hsv : (10 : ℝ) ^ (n + 1) * (10 : ℝ) ^ (3 - (n + 1)) = ((1000 : ℤ) : ℝ) := by
      rw [← zpow_add₀ ten_ne_zero']
      have hexp : (n + 1) + (3 - (n + 1)) = (3 : ℤ) := by ring
      rw [hexp]
      norm_num
    rw [hsv, round_intCast]
    have h3 : ((1000 : ℤ) : ℝ) = (10 : ℝ) ^ (3 : ℤ) := by norm_num
    rw [h3, ← zpow_add₀ ten_ne_zero']
    congr 1
    omega
  · -- k ≤ 9999: the rounded value stays in the same decimal bracket
    have hk9 : k ≤ 9999 := by omega
    have hb1 : (10 : ℝ) ^ n ≤ (k : ℝ) * (10 : ℝ) ^ (n - 3) := by
      have hc : ((1000 : ℤ) : ℝ) ≤ (k : ℝ) := by exact_mod_cast hk1
      have h10n : (10 : ℝ) ^ n = ((1000 : ℤ) : ℝ) * (10 : ℝ) ^ (n - 3) := by
        have h3 : ((1000 : ℤ) : ℝ) = (10 : ℝ) ^ (3 : ℤ) := by norm_num
        rw [h3, ← zpow_add₀ ten_ne_zero']
        congr 1
        omega
      rw [h10n]
      exact mul_le_mul_of_nonneg_right hc (ten_zpow_pos _).le
    have hb2 : (k : ℝ) * (10 : ℝ) ^ (n - 3) < (10 : ℝ) ^ (n + 1) := by
      have hc : (k : ℝ) < ((10000 : ℤ) : ℝ) := by exact_mod_cast hkl
      have h10n : (10 : ℝ) ^ (n + 1) = ((10000 : ℤ) : ℝ) * (10 : ℝ) ^ (n - 3) := by
        have h4 : ((10000 : ℤ) : ℝ) = (10 : ℝ) ^ (4 : ℤ) := by norm_num
        rw [h4, ← zpow_add₀ ten_ne_zero']
        congr 1
        omega
      rw [h10n]
      exact mul_lt_mul_of_pos_right hc (ten_zpow_pos _)
    rw [roundSignificand_eq_of hb1 hb2 3]
    have hinner : (k : ℝ) * (10 : ℝ) ^ (n - 3) * (10 : ℝ) ^ (3 - n) = (k : ℝ) := by
      rw [mul_assoc, ← zpow_add₀ ten_ne_zero']
      have hexp : (n - 3) + (3 - n) = (0 : ℤ) := by ring
      rw [hexp, zpow_zero, mul_one]
    rw [hinner, round_intCast]

/-- Witness for C9 at `x = 5/2`. -/
theorem roundSignificand_idempotent_witness :
    0 < (5 / 2 : ℝ) ∧
    roundSignificand (roundSignificand (5 / 2) 3) 3 = roundSignificand (5 / 2) 3 :=
  ⟨by norm_num, roundSignificand_idempotent (5 / 2) (by norm_num)⟩

/-- C7: with the `BOTTOM_RIGHT` anchor and clamping disabled, the resolved
position is the container corner minus the overlay extent minus the offsets,
for every transform and every wrap flag; in particular offsets 5/5, container
400×300 and overlay 100×20 give the point (295, 275). -/
theorem bottomRight_unclamped :
    (∀ (wh wv : Bool) (aspect : ℝ) (pfp : ℝ × ℝ → ℝ × ℝ)
        (bw bh cw ch xo yo : ℝ),
      getScalebarLocation ScalebarLocation.BOTTOM_RIGHT false wh wv aspect pfp
          bw bh cw ch xo yo = some (cw - bw - xo, ch - bh - yo)) ∧
    getScalebarLocation ScalebarLocation.BOTTOM_RIGHT false false false 1
        (fun q => q) 100 20 400 300 5 5 = some (295, 275) := by
  constructor
  · intro wh wv aspect pfp bw bh cw ch xo yo
    rfl
  · simp only [getScalebarLocation]
    norm_num

/-- C8: for every corner anchor with `stayInsideImage` on, a set wrap flag
skips clamping on that axis.  With `wrapHorizontal` set and `wrapVertical`
unset, two transforms agreeing on y-outputs give the same result, whose x is
the unclamped container-edge x and whose y is still clamped; symmetrically
with the roles of the axes swapped. -/
theorem wrap_skips_clamping :
    ∀ (loc : ScalebarLocation), loc ≠ ScalebarLocation.NONE →
    ∀ (aspect : ℝ) (pfp1 pfp2 : ℝ × ℝ → ℝ × ℝ) (bw bh cw ch xo yo : ℝ),
      ((∀ q, (pfp1 q).2 = (pfp2 q).2) →
        getScalebarLocation loc true true false aspect pfp1 bw bh cw ch xo yo
            = some (unclampedX loc bw cw xo, clampedY loc aspect pfp1 bh ch yo) ∧
        getScalebarLocation loc true true false aspect pfp2 bw bh cw ch xo yo
            = some (unclampedX loc bw cw xo, clampedY loc aspect pfp1 bh ch yo)) ∧
      ((∀ q, (pfp1 q).1 = (pfp2 q).1) →
        getScalebarLocation loc true false true aspect pfp1 bw bh cw ch xo yo
            = some (clampedX loc aspect pfp1 bw cw xo, unclampedY loc bh ch yo) ∧
        getScalebarLocation loc true false true aspect pfp2 bw bh cw ch xo yo
            = some (clampedX loc aspect pfp1 bw cw xo, unclampedY loc bh ch yo)) := by
  intro loc hloc aspect pfp1 pfp2 bw bh cw ch xo yo
  cases loc with
  | NONE => exact absurd rfl hloc
  | TOP_LEFT =>
      constructor
      · intro h
        constructor
        · simp [getScalebarLocation, unclampedX, clampedY]
        · simp [getScalebarLocation, unclampedX, clampedY, ← h]
      · intro h
        constructor
        · simp [getScalebarLocation, clampedX, unclampedY]
        · simp [getScalebarLocation, clampedX, unclampedY, ← h]
  | TOP_RIGHT =>
      constructor
      · intro h
        constructor
        · simp [getScalebarLocation, unclampedX, clampedY]
        · simp [getScalebarLocation, unclampedX, clampedY, ← h]
      · intro h
        constructor
        · simp [getScalebarLocation, clampedX, unclampedY]
        · simp [getScalebarLocation, clampedX, unclampedY, ← h]
  | BOTTOM_RIGHT =>
      constructor
      · intro h
        constructor
        · simp [getScalebarLocation, unclampedX, clampedY]
        · simp [getScalebarLocation, unclampedX, clampedY, ← h]
      · intro h
        constructor
        · simp [getScalebarLocation, clampedX, unclampedY]
        · simp [getScalebarLocation, clampedX, unclampedY, ← h]
  | BOTTOM_LEFT =>
      constructor
      · intro h
        constructor
        · simp [getScalebarLocation, unclampedX, clampedY]
        · simp [getScalebarLocation, unclampedX, clampedY, ← h]
      · intro h
        constructor
        · simp [getScalebarLocation, clampedX, unclampedY]
        · simp [getScalebarLocation, clampedX, unclampedY, ← h]

/-- Witness for C8 at the `BOTTOM_RIGHT` corner with two concrete transforms
differing only in x-outputs (and, for the symmetric part, only in y-outputs). -/
theorem wrap_skips_clamping_witness :
    (getScalebarLocation ScalebarLocation.BOTTOM_RIGHT true true false 2
        (fun q => q) 100 20 400 300 5 5
      = some (unclampedX ScalebarLocation.BOTTOM_RIGHT 100 400 5,
          clampedY ScalebarLocation.BOTTOM_RIGHT 2 (fun q => q) 20 300 5) ∧
     getScalebarLocation ScalebarLocation.BOTTOM_RIGHT true true false 2
        (fun q => (q.1 + 50, q.2)) 100 20 400 300 5 5
      = some (unclampedX ScalebarLocation.BOTTOM_RIGHT 100 400 5,
          clampedY ScalebarLocation.BOTTOM_RIGHT 2 (fun q => q) 20 300 5)) ∧
    (getScalebarLocation ScalebarLocation.BOTTOM_RIGHT true false true 2
        (fun q => q) 100 20 400 300 5 5
      = some (clampedX ScalebarLocation.BOTTOM_RIGHT 2 (fun q => q) 100 400 5,
          unclampedY ScalebarLocation.BOTTOM_RIGHT 20 300 5) ∧
     getScalebarLocation ScalebarLocation.BOTTOM_RIGHT true false true 2
        (fun q => (q.1, q.2 + 50)) 100 20 400 300 5 5
      = some (clampedX ScalebarLocation.BOTTOM_RIGHT 2 (fun q => q) 100 400 5,
          unclampedY ScalebarLocation.BOTTOM_RIGHT 20 300 5)) :=
  ⟨(wrap_skips_clamping ScalebarLocation.BOTTOM_RIGHT (by simp) 2
      (fun q => q) (fun q => (q.1 + 50, q.2)) 100 20 400 300 5 5).1
      (fun q => rfl),
   (wrap_skips_clamping ScalebarLocation.BOTTOM_RIGHT (by simp) 2
      (fun q => q) (fun q => (q.1, q.2 + 50)) 100 20 400 300 5 5).2
      (fun q => rfl)⟩

/-- C5 counterexample: a configuration with non-positive minimum width on
which `refresh` does NOT disable the overlay — the guard never inspects
`minWidth`, so the scale computation runs. -/
theorem refresh_runs_on_nonpositive_minWidth :
    exampleState.minWidth ≤ 0 ∧
    refresh exampleState 1 (fun q => q) false false 1 100 20 400 300 ≠
      RefreshOutcome.disabled := by
  constructor
  · simp [exampleState]
  · unfold refresh
    rw [if_neg (by simp [exampleState])]
    simp

/-- C5 amended: `refresh` disables the overlay exactly when the viewer is not
open, `pixelsPerMeter` is `null` or `0`, or `location` is `NONE`; a
non-positive minimum width never triggers the disabled path by itself (the
computation still runs on it — without throwing, since every step is total). -/
theorem refresh_disabled_iff :
    ∀ (st : Scalebar) (zoom : ℝ) (pfp : ℝ × ℝ → ℝ × ℝ) (wh wv : Bool)
      (aspect bw bh cw ch : ℝ), st.minWidth ≤ 0 →
      (refresh st zoom pfp wh wv aspect bw bh cw ch = RefreshOutcome.disabled ↔
        (st.isOpen = false ∨ st.pixelsPerMeter = none ∨
          st.pixelsPerMeter = some 0 ∨ st.location = ScalebarLocation.NONE)) := by
  intro st zoom pfp wh wv aspect bw bh cw ch hmw
  unfold refresh
  split_ifs with h
  · simp [h]
  · simp [h]

/-- Witness for the amended C5 at the concrete zero-width configuration. -/
theorem refresh_disabled_iff_witness :
    exampleState.minWidth ≤ 0 ∧
    (refresh exampleState 1 (fun q => q) false false 1 100 20 400 300 =
        RefreshOutcome.disabled ↔
      (exampleState.isOpen = false ∨ exampleState.pixelsPerMeter = none ∨
        exampleState.pixelsPerMeter = some 0 ∨
        exampleState.location = ScalebarLocation.NONE)) :=
  ⟨by simp [exampleState],
    refresh_disabled_iff exampleState 1 (fun q => q) false false 1 100 20 400
      300 (by simp [exampleState])⟩

/-- C10: `updateOptions` never changes the draw function: the
`if (options.type)` branch calls `setDrawScalebarFunction` and discards the
returned function instead of assigning it, so the function chosen at
construction stays in effect. -/
theorem updateOptions_keeps_drawScalebar :
    ∀ (st : Scalebar) (options : ScalebarOptions),
      (updateOptions st options).drawScalebar = st.drawScalebar :=
  fun _ _ => rfl

end OsdScalebar
